import Mathlib

/-!
Shallow embedding of the `iqs231x-i2c` crate: the `Iqs231xError` wrapper
(`src/error.rs`) and the `Iqs231xDriver` (`src/iqs231x.rs`) with its
constructors, address management, transport release and the
`product_number` register read in its blocking and async variants.

The embedded-hal transport is modelled as an explicit state-passing
`write_read` function; a logging instrumentation records every issued
transaction so that wire-level claims (exactly one transaction, its
address, payload and read length) can be stated and proved.
-/

/-- The default address of the IQS231A/B chips on I2C
(`pub const DEFAULT_ADDR: SevenBitAddress = 0x44`). -/
def DEFAULT_ADDR : Nat := 0x44

/-- The product-identification register offset
(`const PRODUCT_NUMBER_REG: u8 = 0x00`). -/
def PRODUCT_NUMBER_REG : Nat := 0x00

/-- The error wrapper of `src/error.rs`:
`pub enum Iqs231xError<E> { I2CError(E) }`, with structural equality as
given by the derived `PartialEq`/`Eq`. -/
inductive Iqs231xError (E : Type) : Type where
  | I2CError : E → Iqs231xError E
deriving DecidableEq, Repr

/-- The `impl<E> From<E> for Iqs231xError<E>` conversion: wraps the
transport error value unchanged.  This is the conversion invoked by the
`?` operator inside `product_number`. -/
def Iqs231xError.fromError {E : Type} (value : E) : Iqs231xError E :=
  Iqs231xError.I2CError value

/-- The driver struct of `src/iqs231x.rs`:
`pub struct Iqs231xDriver<I2C> { address: SevenBitAddress, i2c: I2C }`.
`SevenBitAddress` is `u8`, modelled as `Nat`; the field projection
`address` also models the getter `pub fn address(&self)`, which returns
the field unchanged. -/
structure Iqs231xDriver (I2C : Type) : Type where
  address : Nat
  i2c : I2C

/-- Constructor `Iqs231xDriver::new`: binds the default address. -/
def Iqs231xDriver.new {I2C : Type} (i2c : I2C) : Iqs231xDriver I2C :=
  { address := DEFAULT_ADDR, i2c := i2c }

/-- Constructor `Iqs231xDriver::with_address`: binds the caller-supplied
address verbatim. -/
def Iqs231xDriver.with_address {I2C : Type} (i2c : I2C) (addr : Nat) :
    Iqs231xDriver I2C :=
  { address := addr, i2c := i2c }

/-- `Iqs231xDriver::set_address`: `self.address = addr;` — a pure field
update, modelled by returning the updated driver.  It touches no other
field and performs no transport call (its definition does not mention a
bus at all). -/
def Iqs231xDriver.set_address {I2C : Type} (d : Iqs231xDriver I2C)
    (addr : Nat) : Iqs231xDriver I2C :=
  { d with address := addr }

/-- `Iqs231xDriver::release_inner`: consumes the driver and returns the
underlying transport handle. -/
def Iqs231xDriver.release_inner {I2C : Type} (d : Iqs231xDriver I2C) : I2C :=
  d.i2c

/-- One combined write-then-read bus transaction as observed by the
transport: target address, bytes written, number of bytes requested. -/
structure WriteReadReq : Type where
  addr : Nat
  writeBytes : List Nat
  readLen : Nat
deriving DecidableEq, Repr

/-- A model of an `embedded_hal::i2c::I2c` (or `embedded_hal_async`)
transport: given the bus state, a target address, the bytes to write and
the read buffer, `write_read` either fails with a transport error `E` or
succeeds returning the final contents of the read buffer, in both cases
together with the successor bus state. -/
structure I2cBus (S E : Type) : Type where
  write_read : S → Nat → List Nat → List Nat → Except E (List Nat) × S

/-- Instrumentation of a transport: the same behaviour, with every issued
transaction appended to a log carried alongside the bus state. -/
def I2cBus.logged {S E : Type} (bus : I2cBus S E) :
    I2cBus (S × List WriteReadReq) E where
  write_read := fun s addr w buf =>
    let r := bus.write_read s.1 addr w buf
    (r.1, (r.2, s.2 ++ [⟨addr, w, buf.length⟩]))

/-- The blocking `Iqs231xDriver::product_number` (feature `blocking`):
allocates a two-byte buffer `[0, 0]`, issues one `write_read` at the
bound address writing `[PRODUCT_NUMBER_REG]`, propagates a transport
error through `From` (the `?` operator), and on success returns
`results[1]`. -/
def Iqs231xDriver.product_number {S E : Type} (bus : I2cBus S E)
    (d : Iqs231xDriver S) : Except (Iqs231xError E) Nat × Iqs231xDriver S :=
  let results : List Nat := [0, 0]
  match bus.write_read d.i2c d.address [PRODUCT_NUMBER_REG] results with
  | (Except.error e, s) => (Except.error (Iqs231xError.fromError e), { d with i2c := s })
  | (Except.ok results, s) => (Except.ok (results.getD 1 0), { d with i2c := s })

/-- The async `Iqs231xDriver::product_number` (feature `async`):
textually the same body as the blocking variant, with the transport call
awaited; awaiting only affects scheduling, so the embedding is the same
state-passing function, translated separately from the async `impl`
block. -/
def Iqs231xDriver.product_number_async {S E : Type} (bus : I2cBus S E)
    (d : Iqs231xDriver S) : Except (Iqs231xError E) Nat × Iqs231xDriver S :=
  let results : List Nat := [0, 0]
  match bus.write_read d.i2c d.address [PRODUCT_NUMBER_REG] results with
  | (Except.error e, s) => (Except.error (Iqs231xError.fromError e), { d with i2c := s })
  | (Except.ok results, s) => (Except.ok (results.getD 1 0), { d with i2c := s })

/-- A sequence of `n` register-read calls through a given single-call
operation, collecting each call's result and threading the driver
state. -/
def callSeq {S E : Type}
    (op : Iqs231xDriver S → Except (Iqs231xError E) Nat × Iqs231xDriver S) :
    Nat → Iqs231xDriver S →
    List (Except (Iqs231xError E) Nat) × Iqs231xDriver S
  | 0, d => ([], d)
  | n + 1, d =>
    let r := op d
    let rest := callSeq op n r.2
    (r.1 :: rest.1, rest.2)

/-- A concrete transport for witnesses: ignores address, payload and
buffer, always answers with the fixed response `resp`, and counts calls
in its `Nat` state. -/
def constBus (resp : Except Nat (List Nat)) : I2cBus Nat Nat where
  write_read := fun s _a _w _buf => (resp, s + 1)

/-- Evaluation of the blocking read when the transport succeeds. -/
theorem product_number_ok {S E : Type} (bus : I2cBus S E) (d : Iqs231xDriver S)
    (r : List Nat) (s1 : S)
    (h : bus.write_read d.i2c d.address [PRODUCT_NUMBER_REG] [0, 0] =
      (Except.ok r, s1)) :
    Iqs231xDriver.product_number bus d =
      (Except.ok (r.getD 1 0), { d with i2c := s1 }) := by
  simp [Iqs231xDriver.product_number, h]

/-- Evaluation of the blocking read when the transport fails. -/
theorem product_number_err {S E : Type} (bus : I2cBus S E) (d : Iqs231xDriver S)
    (e : E) (s1 : S)
    (h : bus.write_read d.i2c d.address [PRODUCT_NUMBER_REG] [0, 0] =
      (Except.error e, s1)) :
    Iqs231xDriver.product_number bus d =
      (Except.error (Iqs231xError.I2CError e), { d with i2c := s1 }) := by
  simp [Iqs231xDriver.product_number, Iqs231xError.fromError, h]

/-- The two execution modes are the same state-passing function. -/
theorem pn_async_eq {S E : Type} (bus : I2cBus S E) (d : Iqs231xDriver S) :
    Iqs231xDriver.product_number_async bus d =
      Iqs231xDriver.product_number bus d := rfl

/-- Unfolding of the logging instrumentation on one call. -/
theorem logged_write_read {S E : Type} (bus : I2cBus S E)
    (p : S × List WriteReadReq) (addr : Nat) (w buf : List Nat) :
    bus.logged.write_read p addr w buf =
      ((bus.write_read p.1 addr w buf).1,
       ((bus.write_read p.1 addr w buf).2, p.2 ++ [⟨addr, w, buf.length⟩])) := rfl

/-- Whatever the transport answers, one blocking read appends exactly one
transaction to the log: target the bound address, payload
`[PRODUCT_NUMBER_REG]`, read length 2. -/
theorem product_number_log {S E : Type} (bus : I2cBus S E)
    (d : Iqs231xDriver (S × List WriteReadReq)) :
    (Iqs231xDriver.product_number bus.logged d).2.i2c.2 =
      d.i2c.2 ++ [⟨d.address, [PRODUCT_NUMBER_REG], 2⟩] := by
  rcases hw : bus.write_read d.i2c.1 d.address [PRODUCT_NUMBER_REG] [0, 0] with ⟨res, s1⟩
  have hl : bus.logged.write_read d.i2c d.address [PRODUCT_NUMBER_REG] [0, 0] =
      (res, (s1, d.i2c.2 ++ [⟨d.address, [PRODUCT_NUMBER_REG], 2⟩])) := by
    rw [logged_write_read, hw]; rfl
  cases res with
  | error e => rw [product_number_err bus.logged d e _ hl]
  | ok r => rw [product_number_ok bus.logged d r _ hl]

example :
    Iqs231xDriver.product_number (constBus (Except.ok [0x00, 0x40]))
      (Iqs231xDriver.new 0) = (Except.ok 0x40, ⟨0x44, 1⟩) := rfl

/-- C1: for every bound device address and every transport, `product_number`
issues exactly one combined write-then-read transaction to the currently
bound address, writing exactly the single byte `0x00` and reading exactly
two bytes, and on success returns the second received byte, discarding the
first. -/
theorem product_number_wire_contract {S E : Type} (bus : I2cBus S E)
    (d : Iqs231xDriver (S × List WriteReadReq)) :
    ((Iqs231xDriver.product_number bus.logged d).2.i2c.2 =
      d.i2c.2 ++ [⟨d.address, [PRODUCT_NUMBER_REG], 2⟩]) ∧
    ∀ b0 b1 s1,
      bus.write_read d.i2c.1 d.address [PRODUCT_NUMBER_REG] [0, 0] =
        (Except.ok [b0, b1], s1) →
      Iqs231xDriver.product_number bus.logged d =
        (Except.ok b1,
         ⟨d.address, (s1, d.i2c.2 ++ [⟨d.address, [PRODUCT_NUMBER_REG], 2⟩])⟩) := by
  refine ⟨product_number_log bus d, fun b0 b1 s1 hok => ?_⟩
  have hl : bus.logged.write_read d.i2c d.address [PRODUCT_NUMBER_REG] [0, 0] =
      (Except.ok [b0, b1],
       (s1, d.i2c.2 ++ [⟨d.address, [PRODUCT_NUMBER_REG], 2⟩])) := by
    rw [logged_write_read, hok]; rfl
  rw [product_number_ok bus.logged d [b0, b1] _ hl]; rfl

theorem product_number_wire_contract_witness :
    (Iqs231xDriver.product_number (constBus (Except.ok [5, 7])).logged
        (⟨0x44, (0, [])⟩ : Iqs231xDriver (Nat × List WriteReadReq))).1 =
      Except.ok 7 ∧
    (Iqs231xDriver.product_number (constBus (Except.ok [5, 7])).logged
        (⟨0x44, (0, [])⟩ : Iqs231xDriver (Nat × List WriteReadReq))).2.i2c.2 =
      [⟨0x44, [PRODUCT_NUMBER_REG], 2⟩] := by
  have h := product_number_wire_contract (constBus (Except.ok [5, 7]))
      (⟨0x44, (0, [])⟩ : Iqs231xDriver (Nat × List WriteReadReq))
  refine ⟨?_, h.1⟩
  rw [h.2 5 7 1 rfl]

/-- C2: if the transport's combined write-read transaction fails with `E`,
then `product_number` — in either execution mode — returns a failure
wrapping exactly that error value unchanged, and produces no result
value. -/
theorem product_number_error_passthrough {S E : Type} (bus : I2cBus S E)
    (d : Iqs231xDriver S) (e : E) (s1 : S)
    (h : bus.write_read d.i2c d.address [PRODUCT_NUMBER_REG] [0, 0] =
      (Except.error e, s1)) :
    Iqs231xDriver.product_number bus d =
      (Except.error (Iqs231xError.I2CError e), { d with i2c := s1 }) ∧
    Iqs231xDriver.product_number_async bus d =
      (Except.error (Iqs231xError.I2CError e), { d with i2c := s1 }) := by
  refine ⟨product_number_err bus d e s1 h, ?_⟩
  rw [pn_async_eq]
  exact product_number_err bus d e s1 h

theorem product_number_error_passthrough_witness :
    Iqs231xDriver.product_number (constBus (Except.error 9))
        (⟨0x44, 0⟩ : Iqs231xDriver Nat) =
      (Except.error (Iqs231xError.I2CError 9), ⟨0x44, 1⟩) ∧
    Iqs231xDriver.product_number_async (constBus (Except.error 9))
        (⟨0x44, 0⟩ : Iqs231xDriver Nat) =
      (Except.error (Iqs231xError.I2CError 9), ⟨0x44, 1⟩) :=
  product_number_error_passthrough (constBus (Except.error 9)) ⟨0x44, 0⟩ 9 1 rfl

/-- C3: for every transport behaviour and every sequence of calls, the
blocking and suspend-capable variants of the register read produce
identical results and identical failures: they are the same function of
the transport and driver state, call by call and over any call
sequence. -/
theorem product_number_async_blocking_parity {S E : Type} (bus : I2cBus S E) :
    (∀ d : Iqs231xDriver S,
      Iqs231xDriver.product_number_async bus d =
        Iqs231xDriver.product_number bus d) ∧
    ∀ (n : Nat) (d : Iqs231xDriver S),
      callSeq (Iqs231xDriver.product_number_async bus) n d =
        callSeq (Iqs231xDriver.product_number bus) n d := by
  refine ⟨fun d => pn_async_eq bus d, fun n d => ?_⟩
  rw [funext (pn_async_eq bus)]

/-- C4: for every transport handle and either construction, releasing the
transport returns exactly the handle supplied at construction, with no
register operation required in between. -/
theorem release_inner_returns_construction_handle {S : Type} (i2c : S)
    (a : Nat) :
    (Iqs231xDriver.new i2c).release_inner = i2c ∧
    (Iqs231xDriver.with_address i2c a).release_inner = i2c :=
  ⟨rfl, rfl⟩

/-- C5: for all valid 7-bit addresses `a`, constructing with explicit
address `a` and then querying the current address returns `a`. -/
theorem with_address_address_roundtrip {S : Type} (i2c : S) (a : Nat)
    (h : a < 0x80) :
    (Iqs231xDriver.with_address i2c a).address = a := rfl

theorem with_address_address_roundtrip_witness :
    0x45 < 0x80 ∧ (Iqs231xDriver.with_address (0 : Nat) 0x45).address = 0x45 :=
  ⟨by decide, with_address_address_roundtrip 0 0x45 (by decide)⟩

/-- C6: constructing a driver with no explicit address binds it to the
family default address constant `0x44`. -/
theorem new_binds_default_addr {S : Type} (i2c : S) :
    (Iqs231xDriver.new i2c).address = DEFAULT_ADDR ∧ DEFAULT_ADDR = 0x44 :=
  ⟨rfl, rfl⟩

/-- C7: for all valid 7-bit addresses `a` and `b`, constructing with the
default address, setting the address to `a` then to `b`, and querying
returns `b`: the last address set wins and the intermediate value is
unobservable to subsequent calls. -/
theorem set_address_last_write_wins {S : Type} (i2c : S) (a b : Nat)
    (ha : a < 0x80) (hb : b < 0x80) :
    (((Iqs231xDriver.new i2c).set_address a).set_address b).address = b := rfl

theorem set_address_last_write_wins_witness :
    0x10 < 0x80 ∧ 0x45 < 0x80 ∧
    ((((Iqs231xDriver.new (0 : Nat)).set_address 0x10).set_address
        0x45).address = 0x45) :=
  ⟨by decide, by decide,
   set_address_last_write_wins 0 0x10 0x45 (by decide) (by decide)⟩

/-- C8: for every driver state and every new address, `set_address`
mutates only the bound address field: the transport handle is unchanged
and the new address is stored without any validation (the statement holds
for every natural number, so no range check or masking occurs; the
operation is a pure field update that takes no transport argument, hence
performs no bus transaction). -/
theorem set_address_frame_effect {S : Type} (d : Iqs231xDriver S) (a : Nat) :
    (d.set_address a).address = a ∧ (d.set_address a).i2c = d.i2c :=
  ⟨rfl, rfl⟩

/-- C9: two failure values are equal iff their wrapped transport error
values are equal. -/
theorem error_eq_iff_wrapped_eq {E : Type} (e1 e2 : E) :
    Iqs231xError.I2CError e1 = Iqs231xError.I2CError e2 ↔ e1 = e2 := by
  constructor
  · intro h
    injection h
  · intro h
    rw [h]

/-- C10: every 8-bit value, including those at or above `0x80`, is
accepted verbatim by both explicit-address construction and
`set_address`, the query returns it unchanged, and it is used as the
target address of the next bus transaction. -/
theorem address_stored_verbatim_eight_bit {S E : Type} (bus : I2cBus S E)
    (i2c : S) (d : Iqs231xDriver (S × List WriteReadReq)) (a : Nat)
    (h : a < 256) :
    (Iqs231xDriver.with_address i2c a).address = a ∧
    (d.set_address a).address = a ∧
    (Iqs231xDriver.product_number bus.logged (d.set_address a)).2.i2c.2 =
      d.i2c.2 ++ [⟨a, [PRODUCT_NUMBER_REG], 2⟩] := by
  refine ⟨rfl, rfl, ?_⟩
  exact product_number_log bus (d.set_address a)

theorem address_stored_verbatim_eight_bit_witness :
    (0x80 ≤ 0xC4 ∧ 0xC4 < 256) ∧
    (Iqs231xDriver.with_address (0 : Nat) 0xC4).address = 0xC4 ∧
    ((⟨0x44, ((0 : Nat), ([] : List WriteReadReq))⟩ :
        Iqs231xDriver (Nat × List WriteReadReq)).set_address 0xC4).address =
      0xC4 ∧
    (Iqs231xDriver.product_number (constBus (Except.ok [0, 0x40])).logged
        ((⟨0x44, (0, [])⟩ :
          Iqs231xDriver (Nat × List WriteReadReq)).set_address 0xC4)).2.i2c.2 =
      [] ++ [⟨0xC4, [PRODUCT_NUMBER_REG], 2⟩] := by
  refine ⟨⟨by decide, by decide⟩, ?_⟩
  exact address_stored_verbatim_eight_bit (constBus (Except.ok [0, 0x40])) 0
    ⟨0x44, (0, [])⟩ 0xC4 (by decide)
